import Mathlib

/-!
Verification of the token-reader NFC core (reader-protocol layer and state
broadcast service) against its design specification.

The TypeScript sources are shallowly embedded: byte buffers are `List Nat`
(each element a byte value), the pervasive `Result` type is `Except`, and
the stateful `Reader` / `NFC` / server classes are modelled by explicit
state records together with a physical-device oracle that supplies the
outcome of every native PC/SC call (transmit / connect / disconnect).
Each operation additionally returns the trace of low-level device calls it
performed, so retry/recovery policies can be stated as trace equalities.
-/

namespace TokenReader

/-- A byte buffer (TypeScript `Buffer`); each element is one byte value. -/
abbrev Buf := List Nat

-- ---------------------------------------------------------------------------
-- Data model (types.ts)
-- ---------------------------------------------------------------------------

/-- Tag standards `TAG_ISO_14443_3` / `TAG_ISO_14443_4` from types.ts. -/
inductive TagStandard
  | TAG_ISO_14443_3
  | TAG_ISO_14443_4
deriving DecidableEq, Repr

/-- The `TagType` closed enumeration from types.ts. -/
inductive TagType
  | MIFARE_CLASSIC_1K
  | MIFARE_CLASSIC_4K
  | MIFARE_ULTRALIGHT
  | MIFARE_ULTRALIGHT_C
  | MIFARE_ULTRALIGHT_EV1
  | MIFARE_PLUS
  | MIFARE_DESFIRE
  | NTAG_203
  | NTAG_210
  | NTAG_212
  | NTAG_213
  | NTAG_215
  | NTAG_216
  | JCOP_30
  | JCOP_31
  | TOPAZ_512
  | FELICA
  | UNKNOWN
deriving DecidableEq, Repr

/-- `Card` from types.ts: uid (hex string), auto-read data, detected type. -/
structure Card where
  uid : String
  data : Buf
  type : TagType
deriving DecidableEq, Repr

/-- `PiccOperatingParameter` from types.ts: one boolean per bit of the
ACR122U PICC operating parameter byte. -/
structure PiccOperatingParameter where
  autoPolling : Bool
  autoAtsGeneration : Bool
  shortPollingInterval : Bool
  detectFelica424K : Bool
  detectFelica212K : Bool
  detectIso14443B : Bool
  detectIso14443A : Bool
  detectMifare : Bool
deriving DecidableEq, Repr

/-- `LedState` from types.ts: the two ACR122U LED channels. -/
structure LedState where
  red : Bool
  green : Bool
deriving DecidableEq, Repr

/-- A `{ startPage, pageCount }` entry of `TAG_DATA_RANGE` (constants.ts). -/
structure DataPageRange where
  startPage : Nat
  pageCount : Nat
deriving DecidableEq, Repr

-- ---------------------------------------------------------------------------
-- Command/response codec (constants.ts)
-- ---------------------------------------------------------------------------

/-- `CMD_GET_DATA_UID`: GET DATA APDU retrieving the UID. -/
def CMD_GET_DATA_UID : Buf := [0xff, 0xca, 0x00, 0x00, 0x00]

/-- `buildReadCommand`: READ BINARY APDU `FF B0 00 <page> <length>`. -/
def buildReadCommand (pageNumber length : Nat) : Buf :=
  [0xff, 0xb0, 0x00, pageNumber, length]

/-- `SW_SUCCESS`: the successful APDU status word `0x9000`. -/
def SW_SUCCESS : Nat := 0x9000

/-- `getStatusWord`: the 2-byte status word from the end of a response
(`0` when the response is shorter than 2 bytes). -/
def getStatusWord (response : Buf) : Nat :=
  if response.length < 2 then 0
  else
    (response.getD (response.length - 2) 0) <<< 8 |||
      response.getD (response.length - 1) 0

/-- `getResponseData`: everything except the trailing status word. -/
def getResponseData (response : Buf) : Buf :=
  if response.length < 2 then [] else response.take (response.length - 2)

/-- `PAGE_SIZE`: 4 bytes per page for NTAG21x / MIFARE Ultralight. -/
def PAGE_SIZE : Nat := 4

/-- `PCSC_RID`: the 5-byte PC/SC registered application provider id. -/
def PCSC_RID : Buf := [0xa0, 0x00, 0x00, 0x03, 0x06]

/-- `ATR_STANDARD_MAP`: standard byte after the RID to `TagStandard`. -/
def ATR_STANDARD_MAP : Nat → Option TagStandard
  | 0x01 => some .TAG_ISO_14443_3
  | 0x02 => some .TAG_ISO_14443_4
  | 0x03 => some .TAG_ISO_14443_3
  | 0x11 => some .TAG_ISO_14443_3
  | _ => none

/-- `ATR_TAG_TYPE_MAP`: big-endian 2-byte card name to `TagType`. -/
def ATR_TAG_TYPE_MAP : Nat → Option TagType
  | 0x0001 => some .MIFARE_CLASSIC_1K
  | 0x0002 => some .MIFARE_CLASSIC_4K
  | 0x0003 => some .MIFARE_ULTRALIGHT
  | 0x0026 => some .MIFARE_ULTRALIGHT_C
  | 0x003a => some .MIFARE_ULTRALIGHT_EV1
  | 0x0030 => some .TOPAZ_512
  | 0xf004 => some .NTAG_213
  | 0xf005 => some .NTAG_215
  | 0xf007 => some .NTAG_216
  | 0xf011 => some .FELICA
  | 0xf012 => some .FELICA
  | 0x0028 => some .JCOP_30
  | 0x0038 => some .JCOP_31
  | _ => none

/-- `ATR_MIN_LENGTH`: minimum ATR length for tag identification. -/
def ATR_MIN_LENGTH : Nat := 10

/-- Helper for `findPcscRid`: scans suffixes of the ATR, returning the index
of the first window equal to `PCSC_RID` (the source iterates indices
`0 .. atr.length - 5`; windows shorter than 5 bytes never match). -/
def findRidAux : Buf → Nat → Option Nat
  | [], _ => none
  | l@(_ :: rest), i =>
    if l.take 5 = PCSC_RID then some i else findRidAux rest (i + 1)

/-- `findPcscRid`: index of the first occurrence of `PCSC_RID` in the ATR
(`none` in place of the source's `-1`). -/
def findPcscRid (atr : Buf) : Option Nat :=
  findRidAux atr 0

/-- Result of `parseAtr`: `standard` may be `null`, `type` is a `TagType`. -/
structure AtrInfo where
  standard : Option TagStandard
  type : TagType
deriving DecidableEq, Repr

/-- `parseAtr` from constants.ts: locate the PC/SC RID, then read the SS
(standard) byte and the 2-byte big-endian card name that follow it.
Total on every buffer; the source never throws. -/
def parseAtr (atr : Buf) : AtrInfo :=
  if atr.length < ATR_MIN_LENGTH then ⟨none, .UNKNOWN⟩
  else
    match findPcscRid atr with
    | none => ⟨none, .UNKNOWN⟩
    | some ridIndex =>
      let ssIndex := ridIndex + PCSC_RID.length
      let nnIndex := ssIndex + 1
      if nnIndex + 1 ≥ atr.length then ⟨none, .UNKNOWN⟩
      else
        let standardByte := atr.getD ssIndex 0
        let standard := ATR_STANDARD_MAP standardByte
        let tagTypeMsb := atr.getD nnIndex 0
        let tagTypeLsb := atr.getD (nnIndex + 1) 0
        let tagTypeKey := tagTypeMsb <<< 8 ||| tagTypeLsb
        let type := (ATR_TAG_TYPE_MAP tagTypeKey).getD .UNKNOWN
        ⟨standard, type⟩

/-- `TAG_DATA_RANGE`: user data page range per tag type; `none` means the
family is unsupported for page-based data reading. -/
def TAG_DATA_RANGE : TagType → Option DataPageRange
  | .NTAG_213 => some ⟨3, 1 + 36⟩
  | .NTAG_215 => some ⟨3, 1 + 126⟩
  | .NTAG_216 => some ⟨3, 1 + 222⟩
  | .NTAG_203 => some ⟨3, 1 + 36⟩
  | .NTAG_210 => some ⟨3, 1 + 4⟩
  | .NTAG_212 => some ⟨3, 1 + 32⟩
  | .MIFARE_ULTRALIGHT => some ⟨3, 1 + 12⟩
  | .MIFARE_ULTRALIGHT_C => some ⟨3, 1 + 36⟩
  | .MIFARE_ULTRALIGHT_EV1 => some ⟨3, 1 + 36⟩
  | _ => none

/-- `FAST_READ_TAG_TYPES`: families supporting the NXP FAST_READ command. -/
def FAST_READ_TAG_TYPES : TagType → Bool
  | .NTAG_210 => true
  | .NTAG_212 => true
  | .NTAG_213 => true
  | .NTAG_215 => true
  | .NTAG_216 => true
  | .MIFARE_ULTRALIGHT_EV1 => true
  | _ => false

/-- `FAST_READ_MAX_PAGES`: the per-request page ceiling (60). -/
def FAST_READ_MAX_PAGES : Nat := 60

/-- `buildFastReadCommand`: FAST_READ wrapped in PN532 InCommunicateThru:
`FF 00 00 00 05 D4 42 3A <startPage> <endPage>`. -/
def buildFastReadCommand (startPage endPage : Nat) : Buf :=
  [0xff, 0x00, 0x00, 0x00, 0x05, 0xd4, 0x42, 0x3a, startPage, endPage]

/-- `CMD_GET_VERSION`: NXP GET_VERSION wrapped in InCommunicateThru. -/
def CMD_GET_VERSION : Buf := [0xff, 0x00, 0x00, 0x00, 0x03, 0xd4, 0x42, 0x60]

/-- `VERSION_TAG_TYPE_MAP`: `(productType <<< 8) ||| storageSize` keys. -/
def VERSION_TAG_TYPE_MAP : Nat → Option TagType
  | 0x0406 => some .NTAG_210
  | 0x040a => some .NTAG_212
  | 0x040f => some .NTAG_213
  | 0x0411 => some .NTAG_215
  | 0x0413 => some .NTAG_216
  | 0x030b => some .MIFARE_ULTRALIGHT_EV1
  | 0x030e => some .MIFARE_ULTRALIGHT_EV1
  | _ => none

/-- `parseGetVersion`: identify the tag type from an unwrapped GET_VERSION
payload via bytes 2 (product type) and 6 (storage size). -/
def parseGetVersion (versionData : Buf) : Option TagType :=
  if versionData.length < 7 then none
  else
    let productType := versionData.getD 2 0
    let storageSize := versionData.getD 6 0
    VERSION_TAG_TYPE_MAP (productType <<< 8 ||| storageSize)

/-- `ACR122_CMD_GET_FIRMWARE`: pseudo-APDU `FF 00 48 00 00`. -/
def ACR122_CMD_GET_FIRMWARE : Buf := [0xff, 0x00, 0x48, 0x00, 0x00]

/-- `ACR122_CMD_GET_PICC`: pseudo-APDU `FF 00 50 00 00`. -/
def ACR122_CMD_GET_PICC : Buf := [0xff, 0x00, 0x50, 0x00, 0x00]

/-- `buildSetPiccCommand`: pseudo-APDU `FF 00 51 <param> 00`. -/
def buildSetPiccCommand (param : Nat) : Buf :=
  [0xff, 0x00, 0x51, param, 0x00]

/-- `buildSetBuzzerOnDetectionCommand`: pseudo-APDU `FF 00 52 <p> 00`. -/
def buildSetBuzzerOnDetectionCommand (enabled : Bool) : Buf :=
  [0xff, 0x00, 0x52, if enabled then 0xff else 0x00, 0x00]

/-- `parsePiccParameter`: raw PICC parameter byte to the 8-flag record. -/
def parsePiccParameter (byte : Nat) : PiccOperatingParameter :=
  { autoPolling := byte &&& 0x80 ≠ 0
    autoAtsGeneration := byte &&& 0x40 ≠ 0
    shortPollingInterval := byte &&& 0x20 ≠ 0
    detectFelica424K := byte &&& 0x10 ≠ 0
    detectFelica212K := byte &&& 0x08 ≠ 0
    detectIso14443B := byte &&& 0x04 ≠ 0
    detectIso14443A := byte &&& 0x02 ≠ 0
    detectMifare := byte &&& 0x01 ≠ 0 }

/-- `buildPiccParameterByte`: the 8-flag record back to the raw byte. -/
def buildPiccParameterByte (param : PiccOperatingParameter) : Nat :=
  (if param.autoPolling then 0x80 else 0) |||
  (if param.autoAtsGeneration then 0x40 else 0) |||
  (if param.shortPollingInterval then 0x20 else 0) |||
  (if param.detectFelica424K then 0x10 else 0) |||
  (if param.detectFelica212K then 0x08 else 0) |||
  (if param.detectIso14443B then 0x04 else 0) |||
  (if param.detectIso14443A then 0x02 else 0) |||
  (if param.detectMifare then 0x01 else 0)

/-- `buildLedBuzzerCommand`: pseudo-APDU
`FF 00 40 <ledState> 04 <t1> <t2> <reps> <buzzer>`. -/
def buildLedBuzzerCommand (ledState t1 t2 repetitions buzzerBits : Nat) : Buf :=
  [0xff, 0x00, 0x40, ledState, 0x04, t1, t2, repetitions, buzzerBits]

/-- `parseLedStateByte`: bit 0 = red, bit 1 = green. -/
def parseLedStateByte (byte : Nat) : LedState :=
  { red := byte &&& 0x01 ≠ 0, green := byte &&& 0x02 ≠ 0 }

/-- One hex digit character (lowercase), for `Buffer.toString("hex")`. -/
def hexDigit (n : Nat) : Char :=
  if n < 10 then Char.ofNat (48 + n) else Char.ofNat (87 + n)

/-- Two lowercase hex digits of one byte. -/
def hexOfByte (b : Nat) : List Char :=
  [hexDigit (b / 16 % 16), hexDigit (b % 16)]

/-- `Buffer.toString("hex")`: lowercase hex encoding of a byte buffer. -/
def hexOfBuf (l : Buf) : String :=
  ⟨l.flatMap hexOfByte⟩

-- ---------------------------------------------------------------------------
-- Error taxonomy (errors.ts)
-- ---------------------------------------------------------------------------

/-- Errors produced by the low-level transmit path of Reader.ts
(`ReaderClosedError`, `CardRemovedError`, `ConnectError`,
`DisconnectError`, `TransmitError`).  `transmitErr` carries whether the
wrapped cause matches the card-reset condition (`isCardResetError`
inspects the message/cause of the error). -/
inductive XmitErr
  | readerClosed
  | cardRemoved
  | connectErr
  | disconnectErr
  | transmitErr (causeReset : Bool)
deriving DecidableEq, Repr

/-- The error hierarchy of errors.ts as the reader-protocol layer produces
it: transmit-path errors pass through via `xmit`; `ApduError` carries the
status word; `ReadError` and `ControlError` wrap their underlying
transmit-path cause when the source attaches one; `UnsupportedTagError`
carries the offending family. -/
inductive NfcErr
  | xmit (e : XmitErr)
  | apduErr (sw : Nat)
  | readErr (cause : Option XmitErr)
  | controlErr (cause : Option XmitErr)
  | unsupportedTag (tagType : TagType)
deriving DecidableEq, Repr

/-- `isCardResetError` from Reader.ts: true exactly for a transmit failure
whose message/cause reports SCARD_W_RESET_CARD (0x80100068). -/
def isCardResetErr : XmitErr → Bool
  | .transmitErr causeReset => causeReset
  | _ => false

-- ---------------------------------------------------------------------------
-- Device oracle and reader session state (Reader.ts)
-- ---------------------------------------------------------------------------

/-- Classification of a raw PC/SC error by the two message predicates of
Reader.ts: `reset` = SCARD_W_RESET_CARD (`isCardResetError`), `noCard` =
SCARD_E_NO_SMARTCARD (`isNoSmartcardError`), `other` = anything else.
The PC/SC layer reports one error code per failure, so the two conditions
are mutually exclusive. -/
inductive RawErr
  | reset
  | noCard
  | other
deriving DecidableEq, Repr

/-- The physical reader, as an oracle over native PC/SC calls.  Each
function takes the index of the call (how many calls of that kind were
made before) so that successive outcomes can differ; `transmitF` also
receives the transmitted command.  `connectF` returns the protocol
(`none` models pcsclite invoking the callback without a protocol when the
reader is already connected). -/
structure Dev where
  transmitF : Nat → Buf → Except RawErr Buf
  connectF : Nat → Except RawErr (Option Nat)
  disconnectF : Nat → Bool

/-- Mutable state of one `Reader` (Reader.ts): the closed flag, the stored
protocol and card, the listener count of its typed event emitter, and the
per-kind native-call counters consumed by the `Dev` oracle. -/
structure RSt where
  closed : Bool
  protocol : Option Nat
  card : Option Card
  listeners : Nat
  tc : Nat
  cc : Nat
  dc : Nat
deriving DecidableEq, Repr

/-- Low-level device calls actually performed, in order. -/
inductive Ev
  | devTransmit (cmd : Buf)
  | devConnect
  | devDisconnect
deriving DecidableEq, Repr

/-- Events emitted by the `Reader` to its listeners. -/
inductive REv
  | evCardOn
  | evCard (card : Card)
  | evCardOff (card : Card)
  | evError (e : NfcErr)
  | evEnd
deriving DecidableEq, Repr

/-- `SCARD_PROTOCOL_T1` (the default protocol kept when pcsclite reports
none and no protocol is stored yet). -/
def SCARD_PROTOCOL_T1 : Nat := 2

/-- `Reader.connect`: shared-mode connect.  A raw no-smartcard failure
becomes `CardRemovedError`, any other raw failure `ConnectError`; on
success the reported protocol is stored (or T=1 is defaulted when pcsclite
reports none and none is stored). -/
def connectR (dev : Dev) (st : RSt) : Except XmitErr Unit × RSt × List Ev :=
  if st.closed then (.error .readerClosed, st, [])
  else
    let st1 := { st with cc := st.cc + 1 }
    match dev.connectF st.cc with
    | .error .noCard => (.error .cardRemoved, st1, [.devConnect])
    | .error _ => (.error .connectErr, st1, [.devConnect])
    | .ok (some protocol) =>
      (.ok (), { st1 with protocol := some protocol }, [.devConnect])
    | .ok none =>
      if st.protocol = none then
        (.ok (), { st1 with protocol := some SCARD_PROTOCOL_T1 }, [.devConnect])
      else (.ok (), st1, [.devConnect])

/-- `Reader.disconnect`: leave-card disconnect; clears the stored protocol
on success, returns `DisconnectError` on failure. -/
def disconnectR (dev : Dev) (st : RSt) : Except XmitErr Unit × RSt × List Ev :=
  if st.closed then (.error .readerClosed, st, [])
  else
    let st1 := { st with dc := st.dc + 1 }
    if dev.disconnectF st.dc then
      (.ok (), { st1 with protocol := none }, [.devDisconnect])
    else (.error .disconnectErr, st1, [.devDisconnect])

/-- `Reader.transmitOnce`: single transmit attempt.  Checks the closed
flag, then the stored protocol ("Not connected to a card" is a
`TransmitError` with no cause, hence not a reset), then performs the raw
transmit, classifying raw failures (no-smartcard to `CardRemovedError`,
reset or other to `TransmitError` carrying the cause). -/
def transmitOnceR (dev : Dev) (st : RSt) (cmd : Buf) :
    Except XmitErr Buf × RSt × List Ev :=
  if st.closed then (.error .readerClosed, st, [])
  else
    match st.protocol with
    | none => (.error (.transmitErr false), st, [])
    | some _ =>
      let st1 := { st with tc := st.tc + 1 }
      match dev.transmitF st.tc cmd with
      | .error .noCard => (.error .cardRemoved, st1, [.devTransmit cmd])
      | .error .reset => (.error (.transmitErr true), st1, [.devTransmit cmd])
      | .error .other => (.error (.transmitErr false), st1, [.devTransmit cmd])
      | .ok response => (.ok response, st1, [.devTransmit cmd])

/-- `Reader.transmit`: checks the closed flag, performs one attempt; on
the card-reset condition disconnects (ignoring the disconnect result),
reconnects, and retries the same command once, returning the retry's
result — or the original error when the reconnect fails.  Any other
failure is returned immediately.  (The `responseMaxLength` argument of
the source only caps native buffer allocation and has no effect on the
returned data, so the model omits it.) -/
def transmitR (dev : Dev) (st : RSt) (cmd : Buf) :
    Except XmitErr Buf × RSt × List Ev :=
  if st.closed then (.error .readerClosed, st, [])
  else
    let (r1, st1, t1) := transmitOnceR dev st cmd
    match r1 with
    | .ok response => (.ok response, st1, t1)
    | .error e =>
      if isCardResetErr e then
        let (_, st2, t2) := disconnectR dev st1
        let (rc, st3, t3) := connectR dev st2
        match rc with
        | .error _ => (.error e, st3, t1 ++ t2 ++ t3)
        | .ok _ =>
          let (r2, st4, t4) := transmitOnceR dev st3 cmd
          (r2, st4, t1 ++ t2 ++ t3 ++ t4)
      else (.error e, st1, t1)

-- ---------------------------------------------------------------------------
-- UID retrieval and tag identification (Reader.ts)
-- ---------------------------------------------------------------------------

/-- `Reader.getUid`: GET DATA APDU, status-word check, hex-encoded UID. -/
def getUidR (dev : Dev) (st : RSt) : Except NfcErr String × RSt × List Ev :=
  let (r, st1, t1) := transmitR dev st CMD_GET_DATA_UID
  match r with
  | .error e => (.error (.xmit e), st1, t1)
  | .ok response =>
    let sw := getStatusWord response
    if sw ≠ SW_SUCCESS then (.error (.apduErr sw), st1, t1)
    else (.ok (hexOfBuf (getResponseData response)), st1, t1)

/-- `Reader.identifyTag`: ATR parse, then — for the MIFARE
Ultralight-compatible families only — an optional GET_VERSION refinement;
any failure along the refinement path falls back to the ATR-based type. -/
def identifyTagR (dev : Dev) (st : RSt) (atr : Buf) :
    TagType × RSt × List Ev :=
  let baseType := (parseAtr atr).type
  if baseType ≠ TagType.MIFARE_ULTRALIGHT ∧
      baseType ≠ TagType.MIFARE_ULTRALIGHT_C ∧
      baseType ≠ TagType.MIFARE_ULTRALIGHT_EV1 then
    (baseType, st, [])
  else
    let (r, st1, t1) := transmitR dev st CMD_GET_VERSION
    match r with
    | .error _ => (baseType, st1, t1)
    | .ok response =>
      if getStatusWord response ≠ SW_SUCCESS then (baseType, st1, t1)
      else
        let rawData := getResponseData response
        if rawData.length < 3 ∨ rawData.getD 0 0 ≠ 0xd5 ∨
            rawData.getD 1 0 ≠ 0x43 then
          (baseType, st1, t1)
        else if rawData.getD 2 0 ≠ 0x00 then (baseType, st1, t1)
        else
          match parseGetVersion (rawData.drop 3) with
          | some refinedType => (refinedType, st1, t1)
          | none => (baseType, st1, t1)

-- ---------------------------------------------------------------------------
-- Data page reading (Reader.ts)
-- ---------------------------------------------------------------------------

/-- The FAST_READ chunking schedule: the `(currentStart, currentEnd)` page
windows issued by the while-loop of `readDataPagesFastRead`, each capped
at `FAST_READ_MAX_PAGES` pages. -/
def fastReadChunks (currentStart endPage : Nat) : List (Nat × Nat) :=
  if _h : currentStart ≤ endPage then
    let currentEnd := min (currentStart + FAST_READ_MAX_PAGES - 1) endPage
    (currentStart, currentEnd) :: fastReadChunks (currentEnd + 1) endPage
  else []
termination_by endPage + 1 - currentStart
decreasing_by simp only [FAST_READ_MAX_PAGES]; omega

/-- The while-loop body of `Reader.readDataPagesFastRead`: per window,
transmit the FAST_READ command, check the status word, validate the PN532
`D5 43 00` prefix, and collect the page data; `CardRemovedError`
propagates unwrapped, any other transmit failure is wrapped in
`ReadError`. -/
def fastReadLoop (dev : Dev) (st : RSt) (endPage currentStart : Nat) :
    Except NfcErr (List Buf) × RSt × List Ev :=
  if _h : currentStart ≤ endPage then
    let currentEnd := min (currentStart + FAST_READ_MAX_PAGES - 1) endPage
    let cmd := buildFastReadCommand currentStart currentEnd
    let (r, st1, t1) := transmitR dev st cmd
    match r with
    | .error .cardRemoved => (.error (.xmit .cardRemoved), st1, t1)
    | .error e => (.error (.readErr (some e)), st1, t1)
    | .ok response =>
      let sw := getStatusWord response
      if sw ≠ SW_SUCCESS then (.error (.readErr none), st1, t1)
      else
        let rawData := getResponseData response
        if rawData.length < 3 ∨ rawData.getD 0 0 ≠ 0xd5 ∨
            rawData.getD 1 0 ≠ 0x43 then
          (.error (.readErr none), st1, t1)
        else if rawData.getD 2 0 ≠ 0x00 then (.error (.readErr none), st1, t1)
        else
          let pageData := rawData.drop 3
          let (rRest, st2, t2) := fastReadLoop dev st1 endPage (currentEnd + 1)
          match rRest with
          | .error e => (.error e, st2, t1 ++ t2)
          | .ok chunks => (.ok (pageData :: chunks), st2, t1 ++ t2)
  else (.ok [], st, [])
termination_by endPage + 1 - currentStart
decreasing_by simp only [FAST_READ_MAX_PAGES]; omega

/-- `Reader.readDataPagesFastRead`: the chunked FAST_READ strategy; the
concatenated chunks are trimmed to `pageCount * PAGE_SIZE` bytes.  (The
source asserts the data range exists with `!`; the function is only
called for families present in `TAG_DATA_RANGE`.) -/
def readDataPagesFastRead (dev : Dev) (st : RSt) (tagType : TagType) :
    Except NfcErr Buf × RSt × List Ev :=
  let range := (TAG_DATA_RANGE tagType).getD ⟨0, 0⟩
  let endPage := range.startPage + range.pageCount - 1
  let totalBytes := range.pageCount * PAGE_SIZE
  let (r, st1, t1) := fastReadLoop dev st endPage range.startPage
  match r with
  | .error e => (.error e, st1, t1)
  | .ok chunks => (.ok (chunks.flatten.take totalBytes), st1, t1)

/-- The while-loop body of `Reader.readDataPagesSequential`: one READ
BINARY APDU per page; `CardRemovedError` propagates unwrapped, any other
transmit failure is wrapped in `ReadError`. -/
def seqReadLoop (dev : Dev) (st : RSt) (remaining currentPage : Nat) :
    Except NfcErr (List Buf) × RSt × List Ev :=
  if _h : 0 < remaining then
    let chunkSize := min remaining PAGE_SIZE
    let readCmd := buildReadCommand currentPage chunkSize
    let (r, st1, t1) := transmitR dev st readCmd
    match r with
    | .error .cardRemoved => (.error (.xmit .cardRemoved), st1, t1)
    | .error e => (.error (.readErr (some e)), st1, t1)
    | .ok response =>
      let sw := getStatusWord response
      if sw ≠ SW_SUCCESS then (.error (.readErr none), st1, t1)
      else
        let (rRest, st2, t2) :=
          seqReadLoop dev st1 (remaining - chunkSize) (currentPage + 1)
        match rRest with
        | .error e => (.error e, st2, t1 ++ t2)
        | .ok chunks => (.ok (getResponseData response :: chunks), st2, t1 ++ t2)
  else (.ok [], st, [])
termination_by remaining
decreasing_by simp only [PAGE_SIZE]; omega

/-- `Reader.readDataPagesSequential`: the page-at-a-time fallback; the
concatenated chunks are trimmed to `pageCount * PAGE_SIZE` bytes. -/
def readDataPagesSequential (dev : Dev) (st : RSt) (tagType : TagType) :
    Except NfcErr Buf × RSt × List Ev :=
  let range := (TAG_DATA_RANGE tagType).getD ⟨0, 0⟩
  let totalBytes := range.pageCount * PAGE_SIZE
  let (r, st1, t1) := seqReadLoop dev st totalBytes range.startPage
  match r with
  | .error e => (.error e, st1, t1)
  | .ok chunks => (.ok (chunks.flatten.take totalBytes), st1, t1)

/-- `Reader.readDataPages`: dispatch on `FAST_READ_TAG_TYPES`. -/
def readDataPages (dev : Dev) (st : RSt) (tagType : TagType) :
    Except NfcErr Buf × RSt × List Ev :=
  if FAST_READ_TAG_TYPES tagType then readDataPagesFastRead dev st tagType
  else readDataPagesSequential dev st tagType

-- ---------------------------------------------------------------------------
-- Card-detection sequence and lifecycle (Reader.ts)
-- ---------------------------------------------------------------------------

/-- `Reader.handleCardInserted`: connect, identify the tag, reject
families without a `TAG_DATA_RANGE` entry with `UnsupportedTagError`
(no `card` event, card not recorded), else read the UID and the data
pages, record the `Card` and emit the `card` event.  Returns the new
state, the device-call trace, and the reader events emitted. -/
def handleCardInserted (dev : Dev) (st : RSt) (atr : Buf) :
    RSt × List Ev × List REv :=
  let (rc, st1, t1) := connectR dev st
  match rc with
  | .error e => (st1, t1, [.evError (.xmit e)])
  | .ok _ =>
    let (tagType, st2, t2) := identifyTagR dev st1 atr
    match TAG_DATA_RANGE tagType with
    | none => (st2, t1 ++ t2, [.evError (.unsupportedTag tagType)])
    | some _ =>
      let (ru, st3, t3) := getUidR dev st2
      match ru with
      | .error e => (st3, t1 ++ t2 ++ t3, [.evError e])
      | .ok uid =>
        let (rd, st4, t4) := readDataPages dev st3 tagType
        match rd with
        | .error e => (st4, t1 ++ t2 ++ t3 ++ t4, [.evError e])
        | .ok data =>
          let card : Card := ⟨uid, data, tagType⟩
          ({ st4 with card := some card },
            t1 ++ t2 ++ t3 ++ t4, [.evCard card])

/-- The `card` getter of Reader.ts: `Err(ReaderClosedError)` once closed,
otherwise the stored card (possibly `null`). -/
def cardGetR (st : RSt) : Except XmitErr (Option Card) :=
  if st.closed then .error .readerClosed else .ok st.card

/-- `Reader.close`: idempotency-checked close.  The first call releases
the native handle, sets the closed flag, clears the stored card and
protocol, emits `end`, and drops all listeners; a second call returns
`Err(ReaderClosedError)` and emits nothing. -/
def closeR (st : RSt) : Except XmitErr Unit × RSt × List REv :=
  if st.closed then (.error .readerClosed, st, [])
  else
    (.ok (),
      { st with closed := true, card := none, protocol := none,
                listeners := 0 },
      [.evEnd])

-- ---------------------------------------------------------------------------
-- Vendor extension (ACR122Reader.ts)
-- ---------------------------------------------------------------------------

/-- ASCII decoding with NUL bytes stripped, for the firmware string
(`result.value.toString("ascii").replace` of NULs). -/
def asciiNoNul (l : Buf) : String :=
  ⟨(l.filter (fun b => b ≠ 0)).map (fun b => Char.ofNat (b % 128))⟩

/-- `ACR122Reader.getFirmwareVersion`: closed check, pseudo-APDU transmit;
`CardRemovedError` passes unwrapped, other failures become
`ControlError`; the response is the ASCII firmware string (no status
word). -/
def getFirmwareVersionR (dev : Dev) (st : RSt) :
    Except NfcErr String × RSt × List Ev :=
  if st.closed then (.error (.xmit .readerClosed), st, [])
  else
    let (r, st1, t1) := transmitR dev st ACR122_CMD_GET_FIRMWARE
    match r with
    | .error .cardRemoved => (.error (.xmit .cardRemoved), st1, t1)
    | .error e => (.error (.controlErr (some e)), st1, t1)
    | .ok response => (.ok (asciiNoNul response), st1, t1)

/-- `ACR122Reader.getPiccOperatingParameter`: the ACR122U pseudo-APDU
response is `[status, param]` (no standard status word); responses
shorter than 2 bytes are a `ControlError`. -/
def getPiccOperatingParameterR (dev : Dev) (st : RSt) :
    Except NfcErr PiccOperatingParameter × RSt × List Ev :=
  if st.closed then (.error (.xmit .readerClosed), st, [])
  else
    let (r, st1, t1) := transmitR dev st ACR122_CMD_GET_PICC
    match r with
    | .error .cardRemoved => (.error (.xmit .cardRemoved), st1, t1)
    | .error e => (.error (.controlErr (some e)), st1, t1)
    | .ok response =>
      if response.length < 2 then (.error (.controlErr none), st1, t1)
      else (.ok (parsePiccParameter (response.getD 1 0)), st1, t1)

/-- `ACR122Reader.setPiccOperatingParameter`: builds the SET PICC command
from the packed parameter byte; response handling as for get. -/
def setPiccOperatingParameterR (dev : Dev) (st : RSt)
    (param : PiccOperatingParameter) :
    Except NfcErr PiccOperatingParameter × RSt × List Ev :=
  if st.closed then (.error (.xmit .readerClosed), st, [])
  else
    let cmd := buildSetPiccCommand (buildPiccParameterByte param)
    let (r, st1, t1) := transmitR dev st cmd
    match r with
    | .error .cardRemoved => (.error (.xmit .cardRemoved), st1, t1)
    | .error e => (.error (.controlErr (some e)), st1, t1)
    | .ok response =>
      if response.length < 2 then (.error (.controlErr none), st1, t1)
      else (.ok (parsePiccParameter (response.getD 1 0)), st1, t1)

/-- `ACR122Reader.setBuzzerOnCardDetection`: buzzer enable/disable on
card detection; unsupported readers surface a `ControlError`. -/
def setBuzzerOnCardDetectionR (dev : Dev) (st : RSt) (enabled : Bool) :
    Except NfcErr Unit × RSt × List Ev :=
  if st.closed then (.error (.xmit .readerClosed), st, [])
  else
    let cmd := buildSetBuzzerOnDetectionCommand enabled
    let (r, st1, t1) := transmitR dev st cmd
    match r with
    | .error .cardRemoved => (.error (.xmit .cardRemoved), st1, t1)
    | .error e => (.error (.controlErr (some e)), st1, t1)
    | .ok _ => (.ok (), st1, t1)

/-- `LedBuzzerOptions` from types.ts, with the defaults of
`ACR122Reader.ledBuzzer` already applied (absent LED objects are `none`;
numeric and boolean fields default to 0 / false). -/
structure LedBuzzerOptions where
  red : Option (Bool × Bool × Bool) := none
  green : Option (Bool × Bool × Bool) := none
  t1Duration : Nat := 0
  t2Duration : Nat := 0
  repetitions : Nat := 0
  buzzerOnT1 : Bool := false
  buzzerOnT2 : Bool := false
deriving DecidableEq, Repr

/-- The P2 LED-state byte built by `ACR122Reader.ledBuzzer` from the
options (update bit, initial-state bit, blink bit, final-state bit per
channel). -/
def ledBuzzerStateByte (options : LedBuzzerOptions) : Nat :=
  let afterRed :=
    match options.red with
    | none => 0
    | some (isOn, blink, finalOn) =>
      0x40 ||| (if isOn then 0x01 else 0) ||| (if blink then 0x04 else 0) |||
        (if finalOn then 0x10 else 0)
  match options.green with
  | none => afterRed
  | some (isOn, blink, finalOn) =>
    afterRed ||| 0x80 ||| (if isOn then 0x02 else 0) |||
      (if blink then 0x08 else 0) ||| (if finalOn then 0x20 else 0)

/-- `ACR122Reader.ledBuzzer`: builds the combined LED+buzzer command,
transmits it, and parses the current LED state from the second response
byte; `CardRemovedError` passes unwrapped, other transmit failures become
`ControlError`. -/
def ledBuzzerR (dev : Dev) (st : RSt) (options : LedBuzzerOptions) :
    Except NfcErr LedState × RSt × List Ev :=
  if st.closed then (.error (.xmit .readerClosed), st, [])
  else
    let buzzerBits :=
      (if options.buzzerOnT1 then 0x01 else 0) |||
        (if options.buzzerOnT2 then 0x02 else 0)
    let cmd := buildLedBuzzerCommand (ledBuzzerStateByte options)
      options.t1Duration options.t2Duration options.repetitions buzzerBits
    let (r, st1, t1) := transmitR dev st cmd
    match r with
    | .error .cardRemoved => (.error (.xmit .cardRemoved), st1, t1)
    | .error e => (.error (.controlErr (some e)), st1, t1)
    | .ok response =>
      if response.length < 2 then (.error (.controlErr none), st1, t1)
      else (.ok (parseLedStateByte (response.getD 1 0)), st1, t1)

-- ---------------------------------------------------------------------------
-- Reader discovery service (NFC.ts)
-- ---------------------------------------------------------------------------

/-- Mutable state of the `NFC` discovery service: the closed flag (the
source additionally nulls its pcsc handle, which is set exactly when
closed), the tracked reader names, and its listener count. -/
structure NSt where
  closed : Bool
  readers : List String
  listeners : Nat
deriving DecidableEq, Repr

/-- `NFC.readers` getter: `Err` once the instance is closed, otherwise
the tracked reader set. -/
def nfcReaders (st : NSt) : Except String (List String) :=
  if st.closed then .error "NFC instance is closed" else .ok st.readers

/-- `NFC.close`: idempotency-checked close; the first call releases the
pcsc handle, clears tracking, emits `end` and drops all listeners, a
second call returns a typed failure and emits nothing. -/
def nfcClose (st : NSt) : Except String Unit × NSt × List REv :=
  if st.closed then (.error "NFC instance is already closed", st, [])
  else
    (.ok (), { st with closed := true, readers := [], listeners := 0 },
      [.evEnd])

-- ---------------------------------------------------------------------------
-- State broadcast service (state-server.ts / serve.ts)
-- ---------------------------------------------------------------------------

/-- `Token` from state-server.ts (`class` is a reserved word in Lean, so
the field is `tokenClass`). -/
structure Token where
  id : String
  tokenClass : String
deriving DecidableEq, Repr

/-- The `TokenErrorTypeNFC` enum exactly as declared in state-server.ts:
three members (`UNKNOWN_ERROR`, `READ_INTERRUPTED`, `DATA_INVALID`). -/
inductive TokenErrorTypeNFC
  | UNKNOWN_ERROR
  | READ_INTERRUPTED
  | DATA_INVALID
deriving DecidableEq, Repr, Fintype

/-- TypeScript runtime semantics of a property access
`TokenErrorTypeNFC.<key>` on the enum object of state-server.ts: a
declared member for a declared key, `undefined` (here `none`) for any
other key. -/
def tokenErrorTypeNFCMember : String → Option TokenErrorTypeNFC
  | "UNKNOWN_ERROR" => some .UNKNOWN_ERROR
  | "READ_INTERRUPTED" => some .READ_INTERRUPTED
  | "DATA_INVALID" => some .DATA_INVALID
  | _ => none

/-- `TokenStateNFC` from state-server.ts.  The error variant's `type`
field is declared as `TokenErrorTypeNFC`, but serve.ts constructs it via
enum member access, which at runtime can yield `undefined`; the model
therefore types the field as `Option TokenErrorTypeNFC` so the actually
constructed value can be stated. -/
inductive TokenStateNFC
  | absent
  | reading
  | present (token : Token)
  | errorState (type : Option TokenErrorTypeNFC) (details : String)
deriving DecidableEq, Repr

/-- `StateMessage` from state-server.ts: one entry per role. -/
structure StateMessage where
  challenge : TokenStateNFC
  inventory : TokenStateNFC
deriving DecidableEq, Repr

/-- `createInitialState`: every role starts `ABSENT`. -/
def createInitialState : StateMessage :=
  { challenge := .absent, inventory := .absent }

/-- The `card` handler of `createStateMessagePublisher` (serve.ts):
decode failure yields an `ERROR` state with `DATA_INVALID`, success a
`PRESENT` state carrying the uid and the decoded class. -/
def onCardState (uid : String) (decodeResult : Except String String) :
    TokenStateNFC :=
  match decodeResult with
  | .error e => .errorState (tokenErrorTypeNFCMember "DATA_INVALID") e
  | .ok cls => .present ⟨uid, cls⟩

/-- The `error` handler of `createStateMessagePublisher` (serve.ts): it
emits an `ERROR` state whose `type` is the enum member access
`TokenErrorTypeNFC.READER_ERROR`. -/
def onReaderErrorState (message : String) : TokenStateNFC :=
  .errorState (tokenErrorTypeNFCMember "READER_ERROR") message

/-- One remote WebSocket client of `serveWebSocket`: its readyState
(open or not) and the messages sent to it so far. -/
structure WClient where
  isOpen : Bool
  inbox : List StateMessage
deriving DecidableEq, Repr

/-- State of `serveWebSocket`: the `lastStateMessage` slot and the
connected clients. -/
structure SrvSt where
  last : StateMessage
  clients : List WClient
deriving DecidableEq, Repr

/-- `serveWebSocket` before any event: `lastStateMessage` is
`createInitialState` and no client is connected. -/
def initialSrv : SrvSt :=
  { last := createInitialState, clients := [] }

/-- External events driving `serveWebSocket`: a publication from the
state-message publisher, or a new client connection. -/
inductive SrvEv
  | publish (message : StateMessage)
  | clientConnect
deriving DecidableEq, Repr

/-- One step of `serveWebSocket`: a publication replaces
`lastStateMessage` and broadcasts the whole new snapshot to every client
whose readyState is OPEN; a connection appends a new open client and
sends it exactly the current `lastStateMessage`. -/
def srvStep (s : SrvSt) : SrvEv → SrvSt
  | .publish message =>
    { last := message
      clients := s.clients.map fun c =>
        if c.isOpen then { c with inbox := c.inbox ++ [message] } else c }
  | .clientConnect =>
    { s with clients := s.clients ++ [⟨true, [s.last]⟩] }

/-- Run of `serveWebSocket` over a list of events. -/
def srvRun (s : SrvSt) (evs : List SrvEv) : SrvSt :=
  evs.foldl srvStep s

-- ---------------------------------------------------------------------------
-- Helper lemmas about the transmit path
-- ---------------------------------------------------------------------------

/-- The outcome of a single raw transmit attempt, as `transmitOnceR`
classifies it. -/
def mapRaw : Except RawErr Buf → Except XmitErr Buf
  | .ok response => .ok response
  | .error .reset => .error (.transmitErr true)
  | .error .noCard => .error .cardRemoved
  | .error .other => .error (.transmitErr false)

theorem transmitOnceR_eq (dev : Dev) (st : RSt) (cmd : Buf) (p : Nat)
    (h : st.closed = false) (hp : st.protocol = some p) :
    transmitOnceR dev st cmd =
      (mapRaw (dev.transmitF st.tc cmd), { st with tc := st.tc + 1 },
        [.devTransmit cmd]) := by
  unfold transmitOnceR
  rw [h, hp]
  rcases hr : dev.transmitF st.tc cmd with e | response
  · rcases e <;> simp [mapRaw, hr]
  · simp [mapRaw, hr]

theorem transmitOnceR_ok_inv {dev : Dev} {st : RSt} {cmd response : Buf}
    {st' : RSt} {tr : List Ev}
    (h : transmitOnceR dev st cmd = (.ok response, st', tr)) :
    st.closed = false ∧ dev.transmitF st.tc cmd = .ok response ∧
      st' = { st with tc := st.tc + 1 } ∧ tr = [.devTransmit cmd] := by
  unfold transmitOnceR at h
  rcases hc : st.closed with _ | _ <;> rw [hc] at h
  · rcases hp : st.protocol with _ | p <;> rw [hp] at h
    · simp at h
    · rcases hr : dev.transmitF st.tc cmd with e | r <;> rw [hr] at h
      · rcases e <;> simp at h
      · simp at h
        exact ⟨rfl, by rw [h.1], h.2.1.symm, h.2.2.symm⟩
  · simp at h

/-- Every successful `transmit` comes from some successful raw attempt of
the same command. -/
theorem transmitR_ok_src {dev : Dev} {st : RSt} {cmd response : Buf}
    {st' : RSt} {tr : List Ev}
    (h : transmitR dev st cmd = (.ok response, st', tr)) :
    ∃ n, dev.transmitF n cmd = .ok response := by
  unfold transmitR at h
  rcases hc : st.closed with _ | _ <;> rw [hc] at h
  · rcases h1 : transmitOnceR dev st cmd with ⟨r1, st1, t1⟩
    rw [h1] at h
    rcases r1 with e | r
    · simp only at h
      rcases hres : isCardResetErr e with _ | _ <;> rw [hres] at h
      · simp at h
      · rcases h2 : disconnectR dev st1 with ⟨r2, st2, t2⟩
        rw [h2] at h
        rcases h3 : connectR dev st2 with ⟨r3, st3, t3⟩
        rw [h3] at h
        rcases r3 with e3 | u
        · simp at h
        · simp only at h
          rcases h4 : transmitOnceR dev st3 cmd with ⟨r4, st4, t4⟩
          rw [h4] at h
          simp at h
          rw [h.1] at h4
          exact ⟨st3.tc, (transmitOnceR_ok_inv h4).2.1⟩
    · simp at h
      rw [h.1] at h1
      exact ⟨st.tc, (transmitOnceR_ok_inv h1).2.1⟩
  · simp at h

/-- A device that never reports the card-reset condition. -/
def noResetDev (dev : Dev) : Prop :=
  ∀ n cmd, dev.transmitF n cmd ≠ .error .reset

/-- Without the reset condition, `transmit` is a single attempt. -/
theorem transmitR_eq_once {dev : Dev} (hnr : noResetDev dev) (st : RSt)
    (cmd : Buf) (h : st.closed = false) :
    transmitR dev st cmd = transmitOnceR dev st cmd := by
  unfold transmitR
  rw [h]
  rcases h1 : transmitOnceR dev st cmd with ⟨r1, st1, t1⟩
  rcases r1 with e | r
  · have hres : isCardResetErr e = false := by
      unfold transmitOnceR at h1
      rw [h] at h1
      rcases hp : st.protocol with _ | p <;> rw [hp] at h1
      · simp at h1
        rw [← h1.1]
        rfl
      · rcases hr : dev.transmitF st.tc cmd with e' | r' <;> rw [hr] at h1
        · rcases e'
          · exact absurd hr (hnr st.tc cmd)
          · simp at h1
            rw [← h1.1]
            rfl
          · simp at h1
            rw [← h1.1]
            rfl
        · simp at h1
    simp [hres]
  · simp

-- ---------------------------------------------------------------------------
-- C4: PICC operating parameter round-trip
-- ---------------------------------------------------------------------------

set_option maxRecDepth 2000 in
/-- C4: for every byte value 0–255,
`buildPiccParameterByte (parsePiccParameter b) = b`, and for every
`PiccOperatingParameter` record `p` (eight booleans),
`parsePiccParameter (buildPiccParameterByte p) = p`: the byte⇄struct
conversion round-trips losslessly in both directions. -/
theorem c4_picc_parameter_roundtrip :
    (∀ b : Nat, b < 256 →
      buildPiccParameterByte (parsePiccParameter b) = b) ∧
    (∀ p : PiccOperatingParameter,
      parsePiccParameter (buildPiccParameterByte p) = p) := by
  constructor
  · decide
  · intro p
    obtain ⟨a, b, c, d, e, f, g, h⟩ := p
    revert a b c d e f g h
    decide

/-- Witness for C4 at the concrete byte `0xa5` and the record it parses
to. -/
theorem c4_picc_parameter_roundtrip_witness :
    (0xa5 : Nat) < 256 ∧
      buildPiccParameterByte (parsePiccParameter 0xa5) = 0xa5 ∧
      parsePiccParameter (buildPiccParameterByte (parsePiccParameter 0xa5)) =
        parsePiccParameter 0xa5 :=
  ⟨by decide, c4_picc_parameter_roundtrip.1 0xa5 (by decide),
    c4_picc_parameter_roundtrip.2 (parsePiccParameter 0xa5)⟩

-- ---------------------------------------------------------------------------
-- C5: ATR parsing
-- ---------------------------------------------------------------------------

/-- Counterexample to C5 exactly as stated: this 8-byte ATR contains the
PC/SC RID marker (at index 0) followed by standard byte `0x03` and family
bytes `0x00 0x01`, yet `parseAtr` returns `{ standard := null, type :=
UNKNOWN }`, because the minimum-length check (10 bytes) fires first. -/
theorem c5_parseAtr_counterexample :
    findPcscRid [0xa0, 0x00, 0x00, 0x03, 0x06, 0x03, 0x00, 0x01] = some 0 ∧
    parseAtr [0xa0, 0x00, 0x00, 0x03, 0x06, 0x03, 0x00, 0x01] =
      ⟨none, .UNKNOWN⟩ := by
  constructor
  · rfl
  · rfl

/-- C5 (amended): `parseAtr` is total by construction and never throws.
Every ATR shorter than `ATR_MIN_LENGTH` (10 bytes), and every ATR lacking
the 5-byte PC/SC RID marker, yields `{ standard := null, type := UNKNOWN
}`; every ATR of at least the minimum length whose first marker
occurrence is followed (within the buffer) by standard byte `0x03` and
family bytes `0x00 0x01` yields the ISO 14443-3 standard and the MIFARE
Classic 1K family. -/
theorem c5_parseAtr_classification :
    (∀ atr : Buf, atr.length < ATR_MIN_LENGTH →
      parseAtr atr = ⟨none, .UNKNOWN⟩) ∧
    (∀ atr : Buf, findPcscRid atr = none →
      parseAtr atr = ⟨none, .UNKNOWN⟩) ∧
    (∀ atr : Buf, ∀ i : Nat, ATR_MIN_LENGTH ≤ atr.length →
      findPcscRid atr = some i → i + 7 < atr.length →
      atr.getD (i + 5) 0 = 0x03 → atr.getD (i + 6) 0 = 0x00 →
      atr.getD (i + 7) 0 = 0x01 →
      parseAtr atr = ⟨some .TAG_ISO_14443_3, .MIFARE_CLASSIC_1K⟩) := by
  refine ⟨?_, ?_, ?_⟩
  · intro atr h
    simp [parseAtr, h]
  · intro atr h
    unfold parseAtr
    split
    · rfl
    · rw [h]
  · intro atr i hlen hrid hbound h5 h6 h7
    have h10 : ATR_MIN_LENGTH = 10 := rfl
    unfold parseAtr
    rw [if_neg (by omega), hrid]
    simp only [PCSC_RID, List.length_cons, List.length_nil]
    rw [if_neg (by omega)]
    rw [h5, h6, h7]
    decide

/-- A real MIFARE Classic 1K ATR (20 bytes, RID at index 7, standard
byte `0x03`, card name `0x00 0x01`). -/
def classicAtr : Buf :=
  [0x3b, 0x8f, 0x80, 0x01, 0x80, 0x4f, 0x0c, 0xa0, 0x00, 0x00, 0x03, 0x06,
    0x03, 0x00, 0x01, 0x00, 0x00, 0x00, 0x00, 0x6a]

/-- Witness for C5 at `classicAtr`. -/
theorem c5_parseAtr_classification_witness :
    ATR_MIN_LENGTH ≤ classicAtr.length ∧
      findPcscRid classicAtr = some 7 ∧
      parseAtr classicAtr = ⟨some .TAG_ISO_14443_3, .MIFARE_CLASSIC_1K⟩ :=
  ⟨by decide, by decide,
    c5_parseAtr_classification.2.2 classicAtr 7 (by decide) (by decide)
      (by decide) (by decide) (by decide) (by decide)⟩

-- ---------------------------------------------------------------------------
-- C6: error classification at the service boundary
-- ---------------------------------------------------------------------------

/-- C6 (code bug): the `TokenErrorTypeNFC` taxonomy declared in
state-server.ts has exactly three kinds (`UNKNOWN_ERROR`,
`READ_INTERRUPTED`, `DATA_INVALID`) — there is no timeout kind — and the
reader-error handler of serve.ts constructs its error state through the
member access `TokenErrorTypeNFC.READER_ERROR`, which is not a member of
that enum, so the emitted `type` is undefined (`none`) rather than one
of the defined kinds.  Only the decode-failure path emits a defined kind
(`DATA_INVALID`). -/
theorem c6_error_taxonomy_code_bug :
    Fintype.card TokenErrorTypeNFC = 3 ∧
    tokenErrorTypeNFCMember "TIMEOUT" = none ∧
    tokenErrorTypeNFCMember "READER_ERROR" = none ∧
    (∀ message, onReaderErrorState message = .errorState none message) ∧
    (∀ uid details, onCardState uid (.error details) =
      .errorState (some .DATA_INVALID) details) := by
  refine ⟨by decide, rfl, rfl, fun message => rfl, fun uid details => rfl⟩

-- ---------------------------------------------------------------------------
-- C1: command transmission retry policy
-- ---------------------------------------------------------------------------

/-- C1: every command transmission first checks the closed flag,
returning the ReaderClosed failure if set.  When the first attempt fails
with the card-reset condition and the reconnect succeeds, the session
performs exactly one disconnect+reconnect and retries the exact same
command exactly once (the trace is transmit, disconnect, connect,
transmit of the same command), returning that retry's single-attempt
result.  A failure with the card-removed (no-smartcard) condition, and
any other failure, is returned immediately as a typed failure with no
retry and no reconnect (the trace is the single transmit).  The case of
a failing reconnect is claim C10. -/
theorem c1_transmit_retry_policy (dev : Dev) (st : RSt) (cmd : Buf)
    (p : Nat) :
    (st.closed = true →
      transmitR dev st cmd = (.error .readerClosed, st, [])) ∧
    (st.closed = false → st.protocol = some p →
      ((dev.transmitF st.tc cmd = .error .reset →
        ∀ pr, dev.connectF st.cc = .ok pr →
          (transmitR dev st cmd).1 = mapRaw (dev.transmitF (st.tc + 1) cmd) ∧
          (transmitR dev st cmd).2.2 =
            [.devTransmit cmd, .devDisconnect, .devConnect,
              .devTransmit cmd]) ∧
       (dev.transmitF st.tc cmd = .error .noCard →
          transmitR dev st cmd =
            (.error .cardRemoved, { st with tc := st.tc + 1 },
              [.devTransmit cmd])) ∧
       (dev.transmitF st.tc cmd = .error .other →
          transmitR dev st cmd =
            (.error (.transmitErr false), { st with tc := st.tc + 1 },
              [.devTransmit cmd])) ∧
       (∀ response, dev.transmitF st.tc cmd = .ok response →
          transmitR dev st cmd =
            (.ok response, { st with tc := st.tc + 1 },
              [.devTransmit cmd])))) := by
  constructor
  · intro h
    simp [transmitR, h]
  · intro h hp
    have hone := transmitOnceR_eq dev st cmd p h hp
    refine ⟨?_, ?_, ?_, ?_⟩
    · intro hreset pr hconn
      rcases hd : dev.disconnectF st.dc with _ | _ <;>
        rcases pr with _ | q <;>
          rcases he : dev.transmitF (st.tc + 1) cmd with e' | r <;>
            (try rcases e') <;>
              simp [transmitR, transmitOnceR, disconnectR, connectR,
                isCardResetErr, mapRaw, h, hp, hreset, hconn, hd, he]
    · intro hx
      simp [transmitR, h, hone, hx, isCardResetErr, mapRaw]
    · intro hx
      simp [transmitR, h, hone, hx, isCardResetErr, mapRaw]
    · intro response hx
      simp [transmitR, h, hone, hx, isCardResetErr, mapRaw]

/-- A reader session state freshly connected (protocol T=1-style `2`),
used as the concrete state for witnesses. -/
def st0 : RSt :=
  { closed := false, protocol := some 2, card := none, listeners := 0,
    tc := 0, cc := 0, dc := 0 }

/-- A device whose first raw transmit reports the card-reset condition
and whose second succeeds; connects always succeed. -/
def c1dev : Dev :=
  { transmitF := fun n _ => if n = 0 then .error .reset else .ok [0x90, 0x00]
    connectF := fun _ => .ok (some 2)
    disconnectF := fun _ => true }

/-- Witness for C1: a transmit failing once with the reset condition and
succeeding on retry returns success overall, with exactly one
disconnect+reconnect and one retry of the same command. -/
theorem c1_transmit_retry_policy_witness :
    st0.closed = false ∧ st0.protocol = some 2 ∧
      c1dev.transmitF st0.tc [0x01] = .error .reset ∧
      c1dev.connectF st0.cc = .ok (some 2) ∧
      (transmitR c1dev st0 [0x01]).1 = .ok [0x90, 0x00] ∧
      (transmitR c1dev st0 [0x01]).2.2 =
        [.devTransmit [0x01], .devDisconnect, .devConnect,
          .devTransmit [0x01]] := by
  have h := ((c1_transmit_retry_policy c1dev st0 [0x01] 2).2 rfl rfl).1
    rfl (some 2) rfl
  exact ⟨rfl, rfl, rfl, rfl, by rw [h.1]; rfl, h.2⟩

-- ---------------------------------------------------------------------------
-- C10: reset recovery when the reconnect fails
-- ---------------------------------------------------------------------------

/-- C10: during reset recovery in `transmit`, if the single reconnect
attempt fails (with any raw failure kind `k`), the operation returns the
original card-reset transmit failure — not the reconnect failure — and
performs no retry: the trace is exactly one transmit followed by the
disconnect and connect attempts.  The disconnect step's own outcome is
left completely unconstrained (`dev.disconnectF` is arbitrary), so its
failure is ignored and never surfaced. -/
theorem c10_reset_recovery_reconnect_failure (dev : Dev) (st : RSt)
    (cmd : Buf) (p : Nat) (k : RawErr)
    (h : st.closed = false) (hp : st.protocol = some p)
    (hreset : dev.transmitF st.tc cmd = .error .reset)
    (hconn : dev.connectF st.cc = .error k) :
    (transmitR dev st cmd).1 = .error (.transmitErr true) ∧
    (transmitR dev st cmd).2.2 =
      [.devTransmit cmd, .devDisconnect, .devConnect] := by
  rcases hd : dev.disconnectF st.dc with _ | _ <;> rcases k <;>
    simp [transmitR, transmitOnceR, disconnectR, connectR, isCardResetErr,
      h, hp, hreset, hconn, hd]

/-- A device whose raw transmits always report the card-reset condition,
whose connects always fail, and whose disconnects also fail (showing the
disconnect failure is ignored). -/
def c10dev : Dev :=
  { transmitF := fun _ _ => .error .reset
    connectF := fun _ => .error .other
    disconnectF := fun _ => false }

/-- Witness for C10 on `c10dev`: the original reset-classified transmit
failure comes back and no second transmit appears in the trace. -/
theorem c10_reset_recovery_reconnect_failure_witness :
    st0.closed = false ∧ st0.protocol = some 2 ∧
      c10dev.transmitF st0.tc [0x02] = .error .reset ∧
      c10dev.connectF st0.cc = .error .other ∧
      (transmitR c10dev st0 [0x02]).1 = .error (.transmitErr true) ∧
      (transmitR c10dev st0 [0x02]).2.2 =
        [.devTransmit [0x02], .devDisconnect, .devConnect] := by
  have h := c10_reset_recovery_reconnect_failure c10dev st0 [0x02] 2
    .other rfl rfl rfl rfl
  exact ⟨rfl, rfl, rfl, rfl, h.1, h.2⟩

-- ---------------------------------------------------------------------------
-- C8: idempotency-checked close
-- ---------------------------------------------------------------------------

/-- C8: closing an open Reader session succeeds (`Ok`), emits the `end`
event exactly once and drops all listeners; a second close returns the
typed ReaderClosed failure and emits nothing.  After the first close,
card access, connect, disconnect and transmit all return the
session-closed failure (performing no device calls).  The NFC discovery
service behaves the same way: first close `Ok` with a single `end` and
listeners dropped, second close a typed failure, and the readers
accessor a closed failure. -/
theorem c8_idempotent_close (st : RSt) (ns : NSt)
    (h : st.closed = false) (hn : ns.closed = false) :
    (closeR st).1 = .ok () ∧
    (closeR st).2.2 = [.evEnd] ∧
    (closeR st).2.1.closed = true ∧
    (closeR st).2.1.listeners = 0 ∧
    closeR (closeR st).2.1 = (.error .readerClosed, (closeR st).2.1, []) ∧
    cardGetR (closeR st).2.1 = .error .readerClosed ∧
    (∀ dev, connectR dev (closeR st).2.1 =
      (.error .readerClosed, (closeR st).2.1, [])) ∧
    (∀ dev, disconnectR dev (closeR st).2.1 =
      (.error .readerClosed, (closeR st).2.1, [])) ∧
    (∀ dev cmd, transmitR dev (closeR st).2.1 cmd =
      (.error .readerClosed, (closeR st).2.1, [])) ∧
    (nfcClose ns).1 = .ok () ∧
    (nfcClose ns).2.2 = [.evEnd] ∧
    (nfcClose ns).2.1.closed = true ∧
    (nfcClose ns).2.1.listeners = 0 ∧
    nfcClose (nfcClose ns).2.1 =
      (.error "NFC instance is already closed", (nfcClose ns).2.1, []) ∧
    nfcReaders (nfcClose ns).2.1 = .error "NFC instance is closed" := by
  refine ⟨?_, ?_, ?_, ?_, ?_, ?_, ?_, ?_, ?_, ?_, ?_, ?_, ?_, ?_, ?_⟩ <;>
    simp [closeR, cardGetR, connectR, disconnectR, transmitR, transmitOnceR,
      nfcClose, nfcReaders, h, hn]

/-- A concrete open NFC discovery-service state for the C8 witness. -/
def ns0 : NSt :=
  { closed := false, readers := ["ACS ACR122U PICC Interface"],
    listeners := 1 }

/-- Witness for C8 at the concrete open session `st0` and service
`ns0`. -/
theorem c8_idempotent_close_witness :
    st0.closed = false ∧ ns0.closed = false ∧
      (closeR st0).1 = .ok () ∧ (closeR st0).2.2 = [.evEnd] ∧
      closeR (closeR st0).2.1 =
        (.error .readerClosed, (closeR st0).2.1, []) ∧
      cardGetR (closeR st0).2.1 = .error .readerClosed ∧
      (nfcClose ns0).1 = .ok () ∧
      nfcReaders (nfcClose ns0).2.1 = .error "NFC instance is closed" := by
  have h := c8_idempotent_close st0 ns0 rfl rfl
  exact ⟨rfl, rfl, h.1, h.2.1, h.2.2.2.2.1, h.2.2.2.2.2.1,
    h.2.2.2.2.2.2.2.2.2.1, h.2.2.2.2.2.2.2.2.2.2.2.2.2.2⟩

-- ---------------------------------------------------------------------------
-- C9: broadcast snapshot replay
-- ---------------------------------------------------------------------------

/-- Publishes alone replace `lastStateMessage` and touch no client when
none is connected. -/
theorem srvRun_publishes (messages : List StateMessage) (s : SrvSt)
    (hc : s.clients = []) :
    srvRun s (messages.map .publish) =
      { last := messages.getLastD s.last, clients := [] } := by
  induction messages generalizing s with
  | nil =>
    rcases s with ⟨last, clients⟩
    simp only [List.map_nil, srvRun, List.foldl_nil, List.getLastD_nil]
    simp at hc
    rw [hc]
  | cons m ms ih =>
    simp only [List.map_cons, srvRun, List.foldl_cons, List.getLastD_cons]
    have hstep : srvStep s (.publish m) = { last := m, clients := [] } := by
      simp [srvStep, hc]
    rw [hstep]
    exact ih { last := m, clients := [] } rfl

/-- C9: at creation the aggregate snapshot maps every role to Absent;
after any sequence of `n` published state changes, a newly connecting
client is immediately sent exactly the latest snapshot — one message,
equal to the last published snapshot (or the initial one when none was
published) — and no earlier or intermediate snapshot; and every
published state change replaces the stored snapshot and appends the
whole new snapshot to the inbox of every currently open client, leaving
non-open clients untouched. -/
theorem c9_broadcast_replay (messages : List StateMessage) (s : SrvSt)
    (m : StateMessage) (i : Nat) :
    createInitialState.challenge = .absent ∧
    createInitialState.inventory = .absent ∧
    (srvRun initialSrv (messages.map .publish ++ [.clientConnect])).clients =
      [⟨true, [messages.getLastD createInitialState]⟩] ∧
    (srvStep s (.publish m)).last = m ∧
    (i < s.clients.length →
      ((s.clients.getD i ⟨false, []⟩).isOpen = true →
        (srvStep s (.publish m)).clients.getD i ⟨false, []⟩ =
          { isOpen := true,
            inbox := (s.clients.getD i ⟨false, []⟩).inbox ++ [m] }) ∧
      ((s.clients.getD i ⟨false, []⟩).isOpen = false →
        (srvStep s (.publish m)).clients.getD i ⟨false, []⟩ =
          s.clients.getD i ⟨false, []⟩)) := by
  refine ⟨rfl, rfl, ?_, rfl, ?_⟩
  · rw [srvRun, List.foldl_append]
    have h := srvRun_publishes messages initialSrv rfl
    rw [srvRun] at h
    rw [h]
    simp [srvStep, initialSrv]
  · intro hi
    constructor <;> intro hopen <;>
      · simp only [srvStep]
        rw [List.getD_eq_getElem?_getD, List.getElem?_map,
          List.getElem?_eq_getElem (by simpa using hi)]
        simp only [Option.map_some', Option.getD_some]
        rw [List.getD_eq_getElem?_getD, List.getElem?_eq_getElem hi] at hopen ⊢
        simp only [Option.getD_some] at hopen ⊢
        rcases hc : s.clients[i] with ⟨isOpen, inbox⟩
        rw [hc] at hopen
        cases hopen
        simp

/-- Witness for C9: after two published snapshots a connecting client
receives exactly the second one; and a publish to a two-client server
appends to the open client only. -/
theorem c9_broadcast_replay_witness :
    (srvRun initialSrv
        ([StateMessage.mk .reading .absent,
          StateMessage.mk (.present ⟨"04a1", "alpha"⟩) .absent].map .publish ++
          [.clientConnect])).clients
      = [⟨true, [⟨.present ⟨"04a1", "alpha"⟩, .absent⟩]⟩] ∧
    (0 : Nat) < ([⟨true, []⟩, ⟨false, []⟩] : List WClient).length ∧
    (srvStep ⟨createInitialState, [⟨true, []⟩, ⟨false, []⟩]⟩
        (.publish ⟨.reading, .absent⟩)).clients.getD 0 ⟨false, []⟩ =
      ⟨true, [⟨.reading, .absent⟩]⟩ := by
  refine ⟨?_, by decide, ?_⟩
  · exact (c9_broadcast_replay
      [⟨.reading, .absent⟩, ⟨.present ⟨"04a1", "alpha"⟩, .absent⟩]
      initialSrv ⟨.absent, .absent⟩ 0).2.2.1
  · have h := (c9_broadcast_replay []
      ⟨createInitialState, [⟨true, []⟩, ⟨false, []⟩]⟩
      ⟨.reading, .absent⟩ 0).2.2.2.2 (by decide)
    have h2 := h.1 rfl
    rw [h2]
    rfl

-- ---------------------------------------------------------------------------
-- C2: detect sequence (unsupported families and successful reads)
-- ---------------------------------------------------------------------------

theorem connectR_card (dev : Dev) (st : RSt) :
    ((connectR dev st).2.1).card = st.card := by
  unfold connectR
  rcases h : st.closed with _ | _
  · rcases hc : dev.connectF st.cc with e | pr
    · rcases e <;> simp [h, hc]
    · rcases pr with _ | q
      · rcases hp : st.protocol with _ | p <;> simp [h, hc, hp]
      · simp [h, hc]
  · simp [h]

theorem disconnectR_card (dev : Dev) (st : RSt) :
    ((disconnectR dev st).2.1).card = st.card := by
  unfold disconnectR
  rcases h : st.closed with _ | _
  · rcases hd : dev.disconnectF st.dc with _ | _ <;> simp [h, hd]
  · simp [h]

theorem transmitOnceR_card (dev : Dev) (st : RSt) (cmd : Buf) :
    ((transmitOnceR dev st cmd).2.1).card = st.card := by
  unfold transmitOnceR
  rcases h : st.closed with _ | _
  · rcases hp : st.protocol with _ | p
    · simp [h, hp]
    · rcases hr : dev.transmitF st.tc cmd with e | r
      · rcases e <;> simp [h, hp, hr]
      · simp [h, hp, hr]
  · simp [h]

theorem transmitR_card (dev : Dev) (st : RSt) (cmd : Buf) :
    ((transmitR dev st cmd).2.1).card = st.card := by
  unfold transmitR
  rcases h : st.closed with _ | _
  · rcases h1 : transmitOnceR dev st cmd with ⟨r1, st1, t1⟩
    have e1 : st1.card = st.card := by
      have := transmitOnceR_card dev st cmd
      rw [h1] at this
      exact this
    rcases r1 with e | r
    · rcases hres : isCardResetErr e with _ | _
      · simp [h, h1, hres, e1]
      · rcases h2 : disconnectR dev st1 with ⟨r2, st2, t2⟩
        have e2 : st2.card = st1.card := by
          have := disconnectR_card dev st1
          rw [h2] at this
          exact this
        rcases h3 : connectR dev st2 with ⟨r3, st3, t3⟩
        have e3 : st3.card = st2.card := by
          have := connectR_card dev st2
          rw [h3] at this
          exact this
        rcases r3 with e3' | u
        · simp [h, h1, hres, h2, h3, e3, e2, e1]
        · rcases h4 : transmitOnceR dev st3 cmd with ⟨r4, st4, t4⟩
          have e4 : st4.card = st3.card := by
            have := transmitOnceR_card dev st3 cmd
            rw [h4] at this
            exact this
          simp [h, h1, hres, h2, h3, h4, e4, e3, e2, e1]
    · simp [h, h1, e1]
  · simp [h]

theorem identifyTagR_card (dev : Dev) (st : RSt) (atr : Buf) :
    ((identifyTagR dev st atr).2.1).card = st.card := by
  unfold identifyTagR
  rcases h1 : transmitR dev st CMD_GET_VERSION with ⟨r1, st1, t1⟩
  have e1 : st1.card = st.card := by
    have := transmitR_card dev st CMD_GET_VERSION
    rw [h1] at this
    exact this
  simp only [h1]
  repeat' split
  all_goals first
    | rfl
    | simpa using e1

/-- C2: for every detect sequence (after a successful connect) in which
the identified tag family has no `TAG_DATA_RANGE` entry, the session
emits exactly one `error` event carrying `UnsupportedTagError` with the
offending family, emits no `card` event, and the stored card stays
`null`; for every detect sequence in which the family has an entry and
the UID and data reads succeed, exactly one `card` event is emitted
carrying exactly the read uid, data and family, and that `Card` is
recorded as the session's current card. -/
theorem c2_detect_sequence (dev : Dev) (st : RSt) (atr : Buf)
    (hcard : st.card = none) :
    ∀ st1 t1, connectR dev st = (.ok (), st1, t1) →
    ∀ ty st2 t2, identifyTagR dev st1 atr = (ty, st2, t2) →
      ((TAG_DATA_RANGE ty = none →
        handleCardInserted dev st atr =
          (st2, t1 ++ t2, [.evError (.unsupportedTag ty)]) ∧
        st2.card = none) ∧
       (∀ r, TAG_DATA_RANGE ty = some r →
        ∀ uid st3 t3, getUidR dev st2 = (.ok uid, st3, t3) →
        ∀ data st4 t4, readDataPages dev st3 ty = (.ok data, st4, t4) →
          handleCardInserted dev st atr =
            ({ st4 with card := some ⟨uid, data, ty⟩ },
              t1 ++ t2 ++ t3 ++ t4, [.evCard ⟨uid, data, ty⟩]))) := by
  intro st1 t1 h1 ty st2 t2 h2
  have e1 : st1.card = st.card := by
    have := connectR_card dev st
    rw [h1] at this
    exact this
  have e2 : st2.card = st1.card := by
    have := identifyTagR_card dev st1 atr
    rw [h2] at this
    exact this
  constructor
  · intro hnone
    constructor
    · simp [handleCardInserted, h1, h2, hnone]
    · rw [e2, e1, hcard]
  · intro r hr uid st3 t3 h3 data st4 t4 h4
    simp [handleCardInserted, h1, h2, hr, h3, h4]

/-- A device whose connects succeed (the unsupported-family detect
sequence performs no transmit). -/
def c2dev : Dev :=
  { transmitF := fun _ _ => .error .other
    connectF := fun _ => .ok (some 2)
    disconnectF := fun _ => true }

/-- The state `st0` after one successful connect. -/
def st0c : RSt :=
  { closed := false, protocol := some 2, card := none, listeners := 0,
    tc := 0, cc := 1, dc := 0 }

/-- Witness for C2: a MIFARE Classic 1K ATR identifies a family without
a data-page range; the detect sequence emits only
`error(UnsupportedTag)` and records no card. -/
theorem c2_detect_sequence_witness :
    st0.card = none ∧
      connectR c2dev st0 = (.ok (), st0c, [.devConnect]) ∧
      identifyTagR c2dev st0c classicAtr = (.MIFARE_CLASSIC_1K, st0c, []) ∧
      TAG_DATA_RANGE .MIFARE_CLASSIC_1K = none ∧
      handleCardInserted c2dev st0 classicAtr =
        (st0c, [.devConnect],
          [.evError (.unsupportedTag .MIFARE_CLASSIC_1K)]) ∧
      st0c.card = none := by
  have h := (c2_detect_sequence c2dev st0 classicAtr rfl st0c [.devConnect]
    (by rfl) .MIFARE_CLASSIC_1K st0c [] (by rfl)).1 rfl
  refine ⟨rfl, rfl, rfl, rfl, ?_, h.2⟩
  rw [h.1]
  rfl

-- ---------------------------------------------------------------------------
-- C7: CardRemovedError passes through unwrapped
-- ---------------------------------------------------------------------------

/-- C7: for every read-path and vendor-extension operation (data-page
read — bulk and sequential —, firmware query, PICC parameter get/set,
buzzer control, LED+buzzer control), a transmit failing with the
card-removed condition makes the operation return that
`CardRemovedError` unwrapped, while any other transmit failure is
returned wrapped in the operation's typed failure (`ReadError` for the
read paths, `ControlError` for the vendor commands), with the underlying
failure attached as its cause.  For the read paths the failing transmit
is the first chunk's. -/
theorem c7_card_removed_unwrapped :
    (∀ dev st e st' tr, st.closed = false →
      transmitR dev st ACR122_CMD_GET_FIRMWARE = (.error e, st', tr) →
      getFirmwareVersionR dev st =
        (if e = .cardRemoved then .error (.xmit .cardRemoved)
         else .error (.controlErr (some e)), st', tr)) ∧
    (∀ dev st e st' tr, st.closed = false →
      transmitR dev st ACR122_CMD_GET_PICC = (.error e, st', tr) →
      getPiccOperatingParameterR dev st =
        (if e = .cardRemoved then .error (.xmit .cardRemoved)
         else .error (.controlErr (some e)), st', tr)) ∧
    (∀ dev st param e st' tr, st.closed = false →
      transmitR dev st (buildSetPiccCommand (buildPiccParameterByte param)) =
        (.error e, st', tr) →
      setPiccOperatingParameterR dev st param =
        (if e = .cardRemoved then .error (.xmit .cardRemoved)
         else .error (.controlErr (some e)), st', tr)) ∧
    (∀ dev st enabled e st' tr, st.closed = false →
      transmitR dev st (buildSetBuzzerOnDetectionCommand enabled) =
        (.error e, st', tr) →
      setBuzzerOnCardDetectionR dev st enabled =
        (if e = .cardRemoved then .error (.xmit .cardRemoved)
         else .error (.controlErr (some e)), st', tr)) ∧
    (∀ dev st options e st' tr, st.closed = false →
      transmitR dev st
          (buildLedBuzzerCommand (ledBuzzerStateByte options)
            options.t1Duration options.t2Duration options.repetitions
            ((if options.buzzerOnT1 then 0x01 else 0) |||
              (if options.buzzerOnT2 then 0x02 else 0))) =
        (.error e, st', tr) →
      ledBuzzerR dev st options =
        (if e = .cardRemoved then .error (.xmit .cardRemoved)
         else .error (.controlErr (some e)), st', tr)) ∧
    (∀ dev st ty r e st' tr, TAG_DATA_RANGE ty = some r →
      1 ≤ r.pageCount →
      transmitR dev st
          (buildFastReadCommand r.startPage
            (min (r.startPage + FAST_READ_MAX_PAGES - 1)
              (r.startPage + r.pageCount - 1))) =
        (.error e, st', tr) →
      readDataPagesFastRead dev st ty =
        (if e = .cardRemoved then .error (.xmit .cardRemoved)
         else .error (.readErr (some e)), st', tr)) ∧
    (∀ dev st ty r e st' tr, TAG_DATA_RANGE ty = some r →
      1 ≤ r.pageCount →
      transmitR dev st
          (buildReadCommand r.startPage
            (min (r.pageCount * PAGE_SIZE) PAGE_SIZE)) =
        (.error e, st', tr) →
      readDataPagesSequential dev st ty =
        (if e = .cardRemoved then .error (.xmit .cardRemoved)
         else .error (.readErr (some e)), st', tr)) := by
  refine ⟨?_, ?_, ?_, ?_, ?_, ?_, ?_⟩
  · intro dev st e st' tr h htr
    rcases e <;> simp [getFirmwareVersionR, h, htr]
  · intro dev st e st' tr h htr
    rcases e <;> simp [getPiccOperatingParameterR, h, htr]
  · intro dev st param e st' tr h htr
    rcases e <;> simp [setPiccOperatingParameterR, h, htr]
  · intro dev st enabled e st' tr h htr
    rcases e <;> simp [setBuzzerOnCardDetectionR, h, htr]
  · intro dev st options e st' tr h htr
    rcases e <;> simp [ledBuzzerR, h, htr]
  · intro dev st ty r e st' tr hrange hpc htr
    have hle : r.startPage ≤ r.startPage + r.pageCount - 1 := by omega
    rcases e <;>
      simp [readDataPagesFastRead, hrange, fastReadLoop, hle, htr]
  · intro dev st ty r e st' tr hrange hpc htr
    have h4 : PAGE_SIZE = 4 := rfl
    have hpos : 0 < r.pageCount * PAGE_SIZE := by
      rw [h4]
      omega
    rcases e <;>
      simp [readDataPagesSequential, hrange, seqReadLoop, hpos, htr]

/-- A device whose raw transmits always report the no-smartcard
condition. -/
def c7dev : Dev :=
  { transmitF := fun _ _ => .error .noCard
    connectF := fun _ => .ok (some 2)
    disconnectF := fun _ => true }

/-- Witness for C7: on a card-removed transmit the firmware query
returns the `CardRemovedError` unwrapped, and on a generic transmit
failure (device `c2dev`) it returns a `ControlError` wrapping that
failure. -/
theorem c7_card_removed_unwrapped_witness :
    st0.closed = false ∧
      (getFirmwareVersionR c7dev st0).1 = .error (.xmit .cardRemoved) ∧
      (getFirmwareVersionR c2dev st0).1 =
        .error (.controlErr (some (.transmitErr false))) := by
  have hA := c7_card_removed_unwrapped.1 c7dev st0 .cardRemoved
    { st0 with tc := 1 } [.devTransmit ACR122_CMD_GET_FIRMWARE] rfl (by rfl)
  have hB := c7_card_removed_unwrapped.1 c2dev st0 (.transmitErr false)
    { st0 with tc := 1 } [.devTransmit ACR122_CMD_GET_FIRMWARE] rfl (by rfl)
  refine ⟨rfl, ?_, ?_⟩
  · rw [hA]
    rfl
  · rw [hB]
    rfl

-- ---------------------------------------------------------------------------
-- C3: data-page read lengths and FAST_READ chunking
-- ---------------------------------------------------------------------------

/-- The FAST_READ device contract: a successful response to a FAST_READ
of pages `s..e` carries the 3-byte PN532 prefix plus at least the
requested `(e - s + 1) * PAGE_SIZE` page bytes before the status word
(the chip returns exactly that many; a trailing over-read is allowed and
trimmed by the reader). -/
def fastReadAdequate (dev : Dev) : Prop :=
  ∀ n s e response,
    dev.transmitF n (buildFastReadCommand s e) = .ok response →
    3 + (e - s + 1) * PAGE_SIZE ≤ (getResponseData response).length

/-- The READ BINARY device contract: a successful response to a read of
`len` bytes carries at least `len` data bytes before the status word. -/
def seqReadAdequate (dev : Dev) : Prop :=
  ∀ n page len response,
    dev.transmitF n (buildReadCommand page len) = .ok response →
    len ≤ (getResponseData response).length

theorem fastReadLoop_length {dev : Dev} (hadq : fastReadAdequate dev) :
    ∀ fuel ep cs, ep + 1 - cs ≤ fuel → ∀ st chunks st' tr,
      fastReadLoop dev st ep cs = (.ok chunks, st', tr) →
      (ep + 1 - cs) * PAGE_SIZE ≤ chunks.flatten.length := by
  intro fuel
  induction fuel with
  | zero =>
    intro ep cs hle st chunks st' tr h
    rw [fastReadLoop, dif_neg (by omega)] at h
    have h0 : (ep + 1 - cs) = 0 := by omega
    simp [h0]
  | succ f ih =>
    intro ep cs hle st chunks st' tr h
    by_cases hcs : cs ≤ ep
    · rw [fastReadLoop, dif_pos hcs] at h
      simp only [Prod.mk.injEq] at h
      rcases htr : transmitR dev st
          (buildFastReadCommand cs
            (min (cs + FAST_READ_MAX_PAGES - 1) ep)) with ⟨r1, st1, t1⟩
      rw [htr] at h
      rcases r1 with e | response
      · rcases e <;> simp at h
      · simp only at h
        by_cases hsw : getStatusWord response ≠ SW_SUCCESS
        · rw [if_pos hsw] at h
          simp at h
        · rw [if_neg hsw] at h
          by_cases hpre : (getResponseData response).length < 3 ∨
              (getResponseData response).getD 0 0 ≠ 0xd5 ∨
              (getResponseData response).getD 1 0 ≠ 0x43
          · rw [if_pos hpre] at h
            simp at h
          · rw [if_neg hpre] at h
            by_cases hps : (getResponseData response).getD 2 0 ≠ 0x00
            · rw [if_pos hps] at h
              simp at h
            · rw [if_neg hps] at h
              rcases hrec : fastReadLoop dev st1 ep
                  (min (cs + FAST_READ_MAX_PAGES - 1) ep + 1) with
                ⟨r2, st2, t2⟩
              rw [hrec] at h
              rcases r2 with e2 | chunks2
              · simp at h
              · simp only [Prod.mk.injEq, Except.ok.injEq] at h
                obtain ⟨hchunks, _, _⟩ := h
                obtain ⟨n, hn⟩ := transmitR_ok_src htr
                have hbound := hadq n cs
                  (min (cs + FAST_READ_MAX_PAGES - 1) ep) response hn
                have hmin1 : cs ≤ min (cs + FAST_READ_MAX_PAGES - 1) ep := by
                  simp only [FAST_READ_MAX_PAGES]
                  omega
                have hmin2 : min (cs + FAST_READ_MAX_PAGES - 1) ep ≤ ep := by
                  omega
                have hih := ih ep
                  (min (cs + FAST_READ_MAX_PAGES - 1) ep + 1)
                  (by omega) st1 chunks2 st2 t2 hrec
                rw [← hchunks]
                simp only [List.flatten_cons, List.length_append,
                  List.length_drop]
                simp only [PAGE_SIZE, FAST_READ_MAX_PAGES] at hbound hih ⊢
                omega
    · rw [fastReadLoop, dif_neg hcs] at h
      have h0 : (ep + 1 - cs) = 0 := by omega
      simp [h0]

theorem seqReadLoop_length {dev : Dev} (hadq : seqReadAdequate dev) :
    ∀ fuel remaining page, remaining ≤ fuel → ∀ st chunks st' tr,
      seqReadLoop dev st remaining page = (.ok chunks, st', tr) →
      remaining ≤ chunks.flatten.length := by
  intro fuel
  induction fuel with
  | zero =>
    intro remaining page hle st chunks st' tr h
    rw [seqReadLoop, dif_neg (by omega)] at h
    omega
  | succ f ih =>
    intro remaining page hle st chunks st' tr h
    by_cases hrem : 0 < remaining
    · rw [seqReadLoop, dif_pos hrem] at h
      simp only [Prod.mk.injEq] at h
      rcases htr : transmitR dev st
          (buildReadCommand page (min remaining PAGE_SIZE)) with ⟨r1, st1, t1⟩
      rw [htr] at h
      rcases r1 with e | response
      · rcases e <;> simp at h
      · simp only at h
        by_cases hsw : getStatusWord response ≠ SW_SUCCESS
        · rw [if_pos hsw] at h
          simp at h
        · rw [if_neg hsw] at h
          rcases hrec : seqReadLoop dev st1
              (remaining - min remaining PAGE_SIZE) (page + 1) with
            ⟨r2, st2, t2⟩
          rw [hrec] at h
          rcases r2 with e2 | chunks2
          · simp at h
          · simp only [Prod.mk.injEq, Except.ok.injEq] at h
            obtain ⟨hchunks, _, _⟩ := h
            obtain ⟨n, hn⟩ := transmitR_ok_src htr
            have hbound := hadq n page (min remaining PAGE_SIZE) response hn
            have hih := ih (remaining - min remaining PAGE_SIZE) (page + 1)
              (by simp only [PAGE_SIZE]; omega) st1 chunks2 st2 t2 hrec
            rw [← hchunks]
            simp only [List.flatten_cons, List.length_append]
            simp only [PAGE_SIZE] at hbound hih ⊢
            omega
    · rw [seqReadLoop, dif_neg hrem] at h
      omega

theorem fastReadLoop_trace {dev : Dev} (hnr : noResetDev dev) :
    ∀ fuel ep cs, ep + 1 - cs ≤ fuel → ∀ st chunks st' tr,
      st.closed = false →
      fastReadLoop dev st ep cs = (.ok chunks, st', tr) →
      tr = (fastReadChunks cs ep).map
        (fun w => Ev.devTransmit (buildFastReadCommand w.1 w.2)) := by
  intro fuel
  induction fuel with
  | zero =>
    intro ep cs hle st chunks st' tr hcl h
    rw [fastReadLoop, dif_neg (by omega)] at h
    rw [fastReadChunks, dif_neg (by omega)]
    simp only [Prod.mk.injEq, Except.ok.injEq] at h
    rw [← h.2.2]
    rfl
  | succ f ih =>
    intro ep cs hle st chunks st' tr hcl h
    by_cases hcs : cs ≤ ep
    · rw [fastReadLoop, dif_pos hcs] at h
      simp only [Prod.mk.injEq] at h
      rw [fastReadChunks, dif_pos hcs]
      rcases htr : transmitR dev st
          (buildFastReadCommand cs
            (min (cs + FAST_READ_MAX_PAGES - 1) ep)) with ⟨r1, st1, t1⟩
      rw [htr] at h
      rcases r1 with e | response
      · rcases e <;> simp at h
      · have honce := htr
        rw [transmitR_eq_once hnr st _ hcl] at honce
        obtain ⟨_, _, hst1, ht1⟩ := transmitOnceR_ok_inv honce
        simp only at h
        by_cases hsw : getStatusWord response ≠ SW_SUCCESS
        · rw [if_pos hsw] at h
          simp at h
        · rw [if_neg hsw] at h
          by_cases hpre : (getResponseData response).length < 3 ∨
              (getResponseData response).getD 0 0 ≠ 0xd5 ∨
              (getResponseData response).getD 1 0 ≠ 0x43
          · rw [if_pos hpre] at h
            simp at h
          · rw [if_neg hpre] at h
            by_cases hps : (getResponseData response).getD 2 0 ≠ 0x00
            · rw [if_pos hps] at h
              simp at h
            · rw [if_neg hps] at h
              rcases hrec : fastReadLoop dev st1 ep
                  (min (cs + FAST_READ_MAX_PAGES - 1) ep + 1) with
                ⟨r2, st2, t2⟩
              rw [hrec] at h
              rcases r2 with e2 | chunks2
              · simp at h
              · simp only [Prod.mk.injEq, Except.ok.injEq] at h
                obtain ⟨_, _, htr'⟩ := h
                have hmin1 : cs ≤ min (cs + FAST_READ_MAX_PAGES - 1) ep := by
                  simp only [FAST_READ_MAX_PAGES]
                  omega
                have hcl1 : st1.closed = false := by
                  rw [hst1]
                  exact hcl
                have hih := ih ep
                  (min (cs + FAST_READ_MAX_PAGES - 1) ep + 1)
                  (by omega) st1 chunks2 st2 t2 hcl1 hrec
                rw [← htr', ht1, hih]
                rfl
    · rw [fastReadLoop, dif_neg hcs] at h
      rw [fastReadChunks, dif_neg hcs]
      simp only [Prod.mk.injEq, Except.ok.injEq] at h
      rw [← h.2.2]
      rfl

theorem fastReadChunks_mem (cs ep : Nat) (w : Nat × Nat)
    (hw : w ∈ fastReadChunks cs ep) :
    cs ≤ w.1 ∧ w.1 ≤ w.2 ∧ w.2 ≤ ep ∧
      w.2 + 1 - w.1 ≤ FAST_READ_MAX_PAGES := by
  revert hw
  induction cs, ep using fastReadChunks.induct with
  | case1 cs ep h ce ih =>
    intro hw
    rw [fastReadChunks, dif_pos h] at hw
    rcases List.mem_cons.mp hw with hw | hw
    · subst hw
      refine ⟨le_refl _, ?_, ?_, ?_⟩ <;>
        simp only [ce, FAST_READ_MAX_PAGES] at * <;> omega
    · have := ih hw
      simp only [ce] at *
      omega
  | case2 cs ep h =>
    intro hw
    rw [fastReadChunks, dif_neg h] at hw
    simp at hw

theorem fastReadChunks_coverage (cs ep : Nat) :
    (fastReadChunks cs ep).flatMap
        (fun w => List.range' w.1 (w.2 + 1 - w.1)) =
      List.range' cs (ep + 1 - cs) := by
  induction cs, ep using fastReadChunks.induct with
  | case1 cs ep h ce ih =>
    rw [fastReadChunks, dif_pos h]
    simp only [List.flatMap_cons, ih]
    have hce1 : cs ≤ ce := by
      simp only [ce, FAST_READ_MAX_PAGES]
      omega
    have hce2 : ce ≤ ep := by
      simp only [ce]
      omega
    obtain ⟨m, hm⟩ : ∃ m, ce + 1 - cs = m := ⟨_, rfl⟩
    obtain ⟨n, hn⟩ : ∃ n, ep + 1 - (ce + 1) = n := ⟨_, rfl⟩
    rw [hm, hn, show (ce : Nat) + 1 = cs + 1 * m from by omega,
      List.range'_append, show n + m = ep + 1 - cs from by omega]
  | case2 cs ep h =>
    rw [fastReadChunks, dif_neg h]
    have h0 : ep + 1 - cs = 0 := by omega
    rw [h0]
    rfl

/-- C3: for every family with a `TAG_DATA_RANGE` entry, a successful
data-page read — bulk FAST_READ or sequential — returns a buffer of
exactly `pageCount * PAGE_SIZE` bytes, trimmed from the last (possibly
over-read) chunk, provided the device honours its per-chunk response
contract; for the bulk strategy the issued FAST_READ requests follow the
chunk schedule exactly (one request per window, in order, shown here for
runs without reset retries, which would only repeat a window's request),
each window spans at most `FAST_READ_MAX_PAGES` pages, and together the
windows cover exactly the pages `startPage` through
`startPage + pageCount - 1`. -/
theorem c3_read_lengths_and_chunking :
    (∀ dev st ty r buf st' tr, TAG_DATA_RANGE ty = some r →
      1 ≤ r.pageCount → fastReadAdequate dev →
      readDataPagesFastRead dev st ty = (.ok buf, st', tr) →
      buf.length = r.pageCount * PAGE_SIZE) ∧
    (∀ dev st ty r buf st' tr, TAG_DATA_RANGE ty = some r →
      seqReadAdequate dev →
      readDataPagesSequential dev st ty = (.ok buf, st', tr) →
      buf.length = r.pageCount * PAGE_SIZE) ∧
    (∀ dev st ty r buf st' tr, TAG_DATA_RANGE ty = some r →
      noResetDev dev → st.closed = false →
      readDataPagesFastRead dev st ty = (.ok buf, st', tr) →
      tr = (fastReadChunks r.startPage (r.startPage + r.pageCount - 1)).map
        (fun w => Ev.devTransmit (buildFastReadCommand w.1 w.2))) ∧
    (∀ cs ep w, w ∈ fastReadChunks cs ep →
      w.1 ≤ w.2 ∧ w.2 + 1 - w.1 ≤ FAST_READ_MAX_PAGES) ∧
    (∀ cs ep, (fastReadChunks cs ep).flatMap
        (fun w => List.range' w.1 (w.2 + 1 - w.1)) =
      List.range' cs (ep + 1 - cs)) := by
  refine ⟨?_, ?_, ?_, ?_, fastReadChunks_coverage⟩
  · intro dev st ty r buf st' tr hrange hpc hadq h
    unfold readDataPagesFastRead at h
    rw [hrange] at h
    simp only [Option.getD_some] at h
    rcases hloop : fastReadLoop dev st (r.startPage + r.pageCount - 1)
        r.startPage with ⟨rl, stl, trl⟩
    rw [hloop] at h
    rcases rl with e | chunks
    · simp at h
    · simp only [Prod.mk.injEq, Except.ok.injEq] at h
      have hlen := fastReadLoop_length hadq
        (r.startPage + r.pageCount - 1 + 1 - r.startPage)
        (r.startPage + r.pageCount - 1) r.startPage (le_refl _)
        st chunks stl trl hloop
      rw [← h.1, List.length_take]
      have heq : r.startPage + r.pageCount - 1 + 1 - r.startPage =
          r.pageCount := by omega
      rw [heq] at hlen
      omega
  · intro dev st ty r buf st' tr hrange hadq h
    unfold readDataPagesSequential at h
    rw [hrange] at h
    simp only [Option.getD_some] at h
    rcases hloop : seqReadLoop dev st (r.pageCount * PAGE_SIZE)
        r.startPage with ⟨rl, stl, trl⟩
    rw [hloop] at h
    rcases rl with e | chunks
    · simp at h
    · simp only [Prod.mk.injEq, Except.ok.injEq] at h
      have hlen := seqReadLoop_length hadq (r.pageCount * PAGE_SIZE)
        (r.pageCount * PAGE_SIZE) r.startPage (le_refl _)
        st chunks stl trl hloop
      rw [← h.1, List.length_take]
      omega
  · intro dev st ty r buf st' tr hrange hnr hcl h
    unfold readDataPagesFastRead at h
    rw [hrange] at h
    simp only [Option.getD_some] at h
    rcases hloop : fastReadLoop dev st (r.startPage + r.pageCount - 1)
        r.startPage with ⟨rl, stl, trl⟩
    rw [hloop] at h
    rcases rl with e | chunks
    · simp at h
    · simp only [Prod.mk.injEq, Except.ok.injEq] at h
      rw [← h.2.2]
      exact fastReadLoop_trace hnr
        (r.startPage + r.pageCount - 1 + 1 - r.startPage)
        (r.startPage + r.pageCount - 1) r.startPage (le_refl _)
        st chunks stl trl hcl hloop
  · intro cs ep w hw
    have := fastReadChunks_mem cs ep w hw
    exact ⟨this.2.1, this.2.2.2⟩

/-- A device answering every FAST_READ command with the PN532 prefix,
exactly the requested number of zero page bytes, and a success status
word (and READ BINARY commands with the requested bytes); all other
commands fail with a generic error. -/
def padDev : Dev :=
  { transmitF := fun _ cmd =>
      match cmd with
      | [0xff, 0x00, 0x00, 0x00, 0x05, 0xd4, 0x42, 0x3a, s, e] =>
        .ok (0xd5 :: 0x43 :: 0x00 ::
          (List.replicate ((e - s + 1) * PAGE_SIZE) 0 ++ [0x90, 0x00]))
      | [0xff, 0xb0, 0x00, _, len] =>
        .ok (List.replicate len 0 ++ [0x90, 0x00])
      | _ => .error .other
    connectF := fun _ => .ok (some 2)
    disconnectF := fun _ => true }

theorem padDev_fastReadAdequate : fastReadAdequate padDev := by
  intro n s e response h
  simp only [padDev, buildFastReadCommand] at h
  have hresp := (Except.ok.inj h).symm
  subst hresp
  simp [getResponseData, PAGE_SIZE]
  rw [if_neg (by omega)]
  simp
  omega

theorem padDev_noReset : noResetDev padDev := by
  intro n cmd
  simp only [padDev]
  split <;> simp

/-- Witness for C3: on `padDev`, the single-window NTAG_210 bulk read
succeeds with exactly `pageCount * PAGE_SIZE = 20` bytes, its trace is
exactly the one-window chunk schedule, and the three-window NTAG_215
schedule (pages 3–129, ceiling 60) covers exactly pages 3..129. -/
theorem c3_read_lengths_and_chunking_witness :
    fastReadAdequate padDev ∧ noResetDev padDev ∧
      TAG_DATA_RANGE TagType.NTAG_210 = some ⟨3, 5⟩ ∧
      (readDataPagesFastRead padDev st0 TagType.NTAG_210).1 =
        .ok (List.replicate 20 0) ∧
      (List.replicate 20 (0 : Nat)).length = 5 * PAGE_SIZE ∧
      (readDataPagesFastRead padDev st0 TagType.NTAG_210).2.2 =
        [Ev.devTransmit (buildFastReadCommand 3 7)] ∧
      fastReadChunks 3 129 = [(3, 62), (63, 122), (123, 129)] ∧
      (fastReadChunks 3 129).flatMap
          (fun w => List.range' w.1 (w.2 + 1 - w.1)) =
        List.range' 3 127 := by
  have hrun : readDataPagesFastRead padDev st0 TagType.NTAG_210 =
      (.ok (List.replicate 20 0), { st0 with tc := 1 },
        [Ev.devTransmit (buildFastReadCommand 3 7)]) := by
    simp [readDataPagesFastRead, fastReadLoop, TAG_DATA_RANGE, transmitR,
      transmitOnceR, padDev, st0, isCardResetErr, getStatusWord,
      getResponseData, SW_SUCCESS, buildFastReadCommand,
      FAST_READ_MAX_PAGES, PAGE_SIZE]
  have hchunks : fastReadChunks 3 129 = [(3, 62), (63, 122), (123, 129)] := by
    simp [fastReadChunks, FAST_READ_MAX_PAGES]
  have hlen := c3_read_lengths_and_chunking.1 padDev st0 TagType.NTAG_210
    ⟨3, 5⟩ (List.replicate 20 0) { st0 with tc := 1 }
    [Ev.devTransmit (buildFastReadCommand 3 7)] rfl (by norm_num)
    padDev_fastReadAdequate hrun
  have hcov := c3_read_lengths_and_chunking.2.2.2.2 3 129
  refine ⟨padDev_fastReadAdequate, padDev_noReset, rfl, ?_, hlen, ?_, hchunks, ?_⟩
  · rw [hrun]
  · rw [hrun]
  · simpa using hcov

end TokenReader
